import Mathlib

/-!
Verification of the otazumi-auth account and token lifecycle service.

The definitions below are a shallow embedding of the JavaScript source:

* `src/services/authService.js` (class `AuthService`),
* `src/utils/jwt.js` (`verifyToken`),
* the Drizzle schema `db/schema.js` (tables `users`,
  `emailVerificationTokens`, `passwordResetTokens`, `favorites`,
  `watchlist`, `watchHistory`, `dailySignups`).

Modelling conventions:

* The Postgres store is a `DB` record of row lists; `select ... limit 1`
  is `List.find?`, `update ... where` is `List.map` guarded by the same
  predicate as the `where` clause, `insert` appends.  Serial primary
  keys are modelled by explicit counters on `DB` for the tables whose
  `id` column the service actually reads (users, the two token tables,
  `dailySignups`).  The three collection tables (`favorites`,
  `watchlist`, `watchHistory`) omit their serial `id` and `createdAt`
  columns because no embedded operation ever reads them.
* Timestamps are `Nat` (milliseconds); `new Date()` becomes an explicit
  `now` argument.
* `bcrypt.hash(p, 10)` carries a per-call random salt, passed in as an
  explicit `salt` argument; `bcrypt.compare` succeeds exactly when the
  plaintext matches the one baked into the hash.
* `jwt.sign` / `jwt.verify` are modelled as a record carrying the
  claims, the signing secret and the expiry; verification checks the
  secret and the expiry exactly as `jsonwebtoken` does.
* `throw new Error(msg)` is `Except.error (.thrown msg)`; a JavaScript
  runtime `TypeError` (destructuring `undefined`) is
  `Except.error (.typeError msg)`.
* JavaScript truthiness of `a || b` on strings/numbers/booleans is
  modelled by `jsOrStr` / `jsOrNat` / `jsOrBool` (empty string, `0`,
  `false` and absent values are falsy).
-/

deriving instance DecidableEq for Except

namespace Otazumi

/-- Model of a bcrypt hash: the salt chosen at hashing time together
with the plaintext it was derived from.  `bcrypt.compare p h` succeeds
exactly when `p` is the plaintext `h` was built from. -/
structure BcryptHash where
  salt : Nat
  plain : String
deriving DecidableEq, Repr

/-- `bcrypt.hash(password, 10)` with the call's random salt made explicit. -/
def bcryptHash (password : String) (salt : Nat) : BcryptHash :=
  ⟨salt, password⟩

/-- `bcrypt.compare(password, hash)`. -/
def bcryptCompare (password : String) (h : BcryptHash) : Bool :=
  h.plain == password

/-- A signed JWT as produced by `jwt.sign({userId}, secret, {expiresIn})`:
the claims, the issue time, the expiry and the signing secret. -/
structure Jwt where
  userId : Nat
  iat : Nat
  exp : Nat
  secret : String
deriving DecidableEq, Repr

/-- `generateJWT(userId)` from `authService.js`: signs `{userId}` with the
server secret and the configured time-to-live. -/
def generateJWT (userId : Nat) (now : Nat) (secret : String) (ttl : Nat) : Jwt :=
  ⟨userId, now, now + ttl, secret⟩

/-- The decoded claims returned by a successful `jwt.verify`. -/
structure JwtClaims where
  userId : Nat
  iat : Nat
deriving DecidableEq, Repr

/-- `verifyToken(token)` from `src/utils/jwt.js`: checks the signature
(the secret) and the expiry; a bad signature maps to `Invalid token`,
an expired token to `Token has expired`. -/
def verifyToken (t : Jwt) (secret : String) (now : Nat) : Except String JwtClaims :=
  if t.secret = secret then
    if t.exp ≤ now then .error "Token has expired"
    else .ok ⟨t.userId, t.iat⟩
  else .error "Invalid token"

/-- A row of the `users` table (columns the service reads/writes). -/
structure UserRow where
  id : Nat
  email : String
  username : String
  password : BcryptHash
  avatar : String
  isVerified : Bool
  preferences : String
  createdAt : Nat
  updatedAt : Nat
deriving DecidableEq, Repr

/-- A row of `emailVerificationTokens` / `passwordResetTokens`. -/
structure TokenRow where
  id : Nat
  userId : Nat
  token : String
  expiresAt : Nat
  used : Bool
  createdAt : Nat
deriving DecidableEq, Repr

/-- A client-submitted favorites/watchlist entry: the fields the sync
code inspects (`id`, `animeId`, `status`) plus the opaque remainder of
the JSON object, stored wholesale in the `animeData` column. -/
structure AnimeEntry where
  id : String
  animeId : Option String
  status : Option String
  payload : String
deriving DecidableEq, Repr

/-- A client-submitted watch-history entry. -/
structure HistoryEntry where
  animeId : String
  episodeId : String
  episodeNumber : Nat
  progress : Option Nat
  duration : Option Nat
  completed : Option Bool
  watchedAt : Option Nat
deriving DecidableEq, Repr

/-- A row of the `favorites` table (serial `id` and `createdAt` omitted:
never read by the service). -/
structure FavoriteRow where
  userId : Nat
  animeId : String
  animeData : AnimeEntry
deriving DecidableEq, Repr

/-- A row of the `watchlist` table. -/
structure WatchlistRow where
  userId : Nat
  animeId : String
  status : String
  animeData : AnimeEntry
deriving DecidableEq, Repr

/-- A row of the `watchHistory` table. -/
structure WatchHistoryRow where
  userId : Nat
  animeId : String
  episodeId : String
  episodeNumber : Nat
  progress : Nat
  duration : Nat
  completed : Bool
  watchedAt : Nat
deriving DecidableEq, Repr

/-- A row of the `dailySignups` table. -/
structure SignupRow where
  id : Nat
  date : String
  count : Nat
deriving DecidableEq, Repr

/-- The store: one list per table, plus the serial-id counters of the
tables whose `id` column the service reads. -/
structure DB where
  users : List UserRow
  emailVerificationTokens : List TokenRow
  passwordResetTokens : List TokenRow
  favorites : List FavoriteRow
  watchlist : List WatchlistRow
  watchHistory : List WatchHistoryRow
  dailySignups : List SignupRow
  nextUserId : Nat
  nextEmailTokenId : Nat
  nextResetTokenId : Nat
  nextSignupId : Nat
deriving DecidableEq, Repr

/-- Failures surfaced by the service: `thrown` for `throw new Error(msg)`,
`typeError` for a JavaScript runtime `TypeError`. -/
inductive AuthErr where
  | thrown (msg : String)
  | typeError (msg : String)
deriving DecidableEq, Repr

/-- JavaScript `a || b` for an optional string (`undefined` and `""` are
falsy). -/
def jsOrStr (a : Option String) (b : String) : String :=
  match a with
  | some s => if s = "" then b else s
  | none => b

/-- JavaScript `a || b` for an optional number (`undefined` and `0` are
falsy). -/
def jsOrNat (a : Option Nat) (b : Nat) : Nat :=
  match a with
  | some n => if n = 0 then b else n
  | none => b

/-- JavaScript `a || b` for an optional boolean (`undefined` and `false`
are falsy). -/
def jsOrBool (a : Option Bool) (b : Bool) : Bool :=
  match a with
  | some x => if x = false then b else x
  | none => b

/-- The user projection produced by
`const { password: _, ...userWithoutPassword } = user`: every `users`
column except the password hash. -/
structure UserProjection where
  id : Nat
  email : String
  username : String
  avatar : String
  isVerified : Bool
  preferences : String
  createdAt : Nat
  updatedAt : Nat
deriving DecidableEq, Repr

/-- Rest-destructuring a user row without its `password` field. -/
def stripPassword (u : UserRow) : UserProjection :=
  ⟨u.id, u.email, u.username, u.avatar, u.isVerified, u.preferences,
   u.createdAt, u.updatedAt⟩

/-- `{ success, message }` results returned by resetPassword/verifyEmail. -/
structure OkMsg where
  success : Bool
  message : String
deriving DecidableEq, Repr

/-- Result of `AuthService.login`. -/
structure LoginResult where
  user : UserProjection
  token : Jwt
deriving DecidableEq, Repr

/-- `AuthService.login(email, password)`: selects the user by email,
compares the bcrypt hash, and returns the stripped user plus a fresh
JWT; both failure paths throw `Invalid credentials`. -/
def login (db : DB) (email password : String) (now : Nat)
    (jwtSecret : String) (jwtTtl : Nat) : Except AuthErr LoginResult :=
  match db.users.find? (fun u => u.email == email) with
  | none => .error (.thrown "Invalid credentials")
  | some user =>
      if bcryptCompare password user.password then
        .ok ⟨stripPassword user, generateJWT user.id now jwtSecret jwtTtl⟩
      else
        .error (.thrown "Invalid credentials")

/-- `AuthService.getUserById(userId)`. -/
def getUserById (db : DB) (userId : Nat) : Except AuthErr UserProjection :=
  match db.users.find? (fun u => u.id == userId) with
  | none => .error (.thrown "User not found")
  | some user => .ok (stripPassword user)

/-- The value returned by `AuthService.checkDailySignupLimit`. -/
structure LimitCheck where
  allowed : Bool
  count : Nat
  limit : Nat
  message : Option String
deriving DecidableEq, Repr

/-- `AuthService.checkDailySignupLimit()`: reads the counter row for
today, lazily creating it with count 0; denies once the count has
reached the configured limit.  The store itself never fails in this
model, so the fail-open catch branch is unreachable. -/
def checkDailySignupLimit (db : DB) (today : String) (limit : Nat) :
    LimitCheck × DB :=
  match db.dailySignups.find? (fun r => r.date == today) with
  | none =>
      (⟨true, 0, limit, none⟩,
       { db with
         dailySignups := db.dailySignups ++ [⟨db.nextSignupId, today, 0⟩],
         nextSignupId := db.nextSignupId + 1 })
  | some r =>
      if r.count ≥ limit then
        (⟨false, r.count, limit,
          some "Daily signup limit reached. Please try again tomorrow."⟩, db)
      else
        (⟨true, r.count, limit, none⟩, db)

/-- `AuthService.incrementSignupCount()`: updates today's counter row to
the read value plus one, inserting a count-1 row if none exists. -/
def incrementSignupCount (db : DB) (today : String) : DB :=
  match db.dailySignups.find? (fun r => r.date == today) with
  | some r =>
      { db with
        dailySignups := db.dailySignups.map
          (fun s => if s.id == r.id then { s with count := r.count + 1 } else s) }
  | none =>
      { db with
        dailySignups := db.dailySignups ++ [⟨db.nextSignupId, today, 1⟩],
        nextSignupId := db.nextSignupId + 1 }

/-- The day's signup count as stored (0 when no row exists yet). -/
def signupCountFor (db : DB) (today : String) : Nat :=
  match db.dailySignups.find? (fun r => r.date == today) with
  | some r => r.count
  | none => 0

/-- The `userData` argument of `AuthService.register`. -/
structure RegisterInput where
  email : String
  username : String
  password : String
  avatar : Option String
deriving DecidableEq, Repr

/-- The success payload of `AuthService.register`. -/
structure RegisterResult where
  user : UserProjection
  token : Jwt
  verificationToken : String
deriving DecidableEq, Repr

/-- Per-request environment: the current UTC date and time, the
configured daily limit, the bcrypt salt drawn for this call, the fresh
random token string, and the JWT secret and time-to-live. -/
structure Env where
  today : String
  now : Nat
  limit : Nat
  salt : Nat
  freshToken : String
  jwtSecret : String
  jwtTtl : Nat
deriving DecidableEq, Repr

/-- `AuthService.register(userData)`: signup-limit check, email and
username uniqueness checks, bcrypt hash, user insert, verification
token insert (24h expiry), counter increment, JWT issuance, and the
password-stripped response. -/
def register (db : DB) (userData : RegisterInput) (env : Env) :
    Except AuthErr RegisterResult × DB :=
  let check := checkDailySignupLimit db env.today env.limit
  let limitCheck := check.1
  let db1 := check.2
  if limitCheck.allowed = false then
    (.error (.thrown (limitCheck.message.getD "undefined")), db1)
  else
    match db1.users.find? (fun u => u.email == userData.email) with
    | some _ => (.error (.thrown "User already exists with this email"), db1)
    | none =>
      match db1.users.find? (fun u => u.username == userData.username) with
      | some _ => (.error (.thrown "Username already taken"), db1)
      | none =>
        let hashedPassword := bcryptHash userData.password env.salt
        let newUser : UserRow :=
          ⟨db1.nextUserId, userData.email, userData.username, hashedPassword,
           jsOrStr userData.avatar "avatar_1", false, "{}", env.now, env.now⟩
        let db2 := { db1 with
          users := db1.users ++ [newUser],
          nextUserId := db1.nextUserId + 1 }
        let expiresAt := env.now + 24 * 60 * 60 * 1000
        let db3 := { db2 with
          emailVerificationTokens := db2.emailVerificationTokens ++
            [⟨db2.nextEmailTokenId, newUser.id, env.freshToken, expiresAt,
              false, env.now⟩],
          nextEmailTokenId := db2.nextEmailTokenId + 1 }
        let db4 := incrementSignupCount db3 env.today
        let token := generateJWT newUser.id env.now env.jwtSecret env.jwtTtl
        (.ok ⟨stripPassword newUser, token, env.freshToken⟩, db4)

/-- The `updates` argument of `AuthService.updateProfile`: an optional
field per possible key of the patch object (`none` = key absent). -/
structure Patch where
  email : Option String
  password : Option String
  username : Option String
  avatar : Option String
  preferences : Option String
deriving DecidableEq, Repr

/-- `delete updates.email; delete updates.password` — the in-place
mutation at the top of `AuthService.updateProfile`. -/
def scrubPatch (p : Patch) : Patch :=
  { p with email := none, password := none }

/-- `.set({ ...updates, updatedAt: new Date() })` applied to one user
row.  The `password` key is not applied here because it is deleted from
the patch before every store write (and its raw-string type would not
match the hash column). -/
def applyPatch (u : UserRow) (p : Patch) (now : Nat) : UserRow :=
  { u with
    email := p.email.getD u.email,
    username := p.username.getD u.username,
    avatar := p.avatar.getD u.avatar,
    preferences := p.preferences.getD u.preferences,
    updatedAt := now }

/-- `AuthService.updateProfile(userId, updates)`.  Returns, besides the
result and the store, the caller's `updates` object as it stands after
the call (the JavaScript function mutates it in place).  When no user
row matches, `.returning()` yields an empty array and destructuring
`undefined` raises a runtime `TypeError`; the row update itself has
already run at that point. -/
def updateProfile (db : DB) (userId : Nat) (patch0 : Patch) (now : Nat) :
    Except AuthErr UserProjection × DB × Patch :=
  let updates := scrubPatch patch0
  let usernameTaken :=
    match updates.username with
    | some uname =>
        if uname == "" then false
        else
          match db.users.find? (fun (u : UserRow) => u.username == uname) with
          | some existing => existing.id != userId
          | none => false
    | none => false
  if usernameTaken then
    (.error (.thrown "Username already taken"), db, updates)
  else
    let updatedRows :=
      (db.users.filter (fun (u : UserRow) => u.id == userId)).map
        (fun u => applyPatch u updates now)
    let db1 := { db with
      users := db.users.map
        (fun (u : UserRow) => if u.id == userId then applyPatch u updates now else u) }
    match updatedRows with
    | [] =>
        (.error (.typeError
          "Cannot destructure property of undefined"), db1, updates)
    | updatedUser :: _ => (.ok (stripPassword updatedUser), db1, updates)

/-- The `where` clause of the reset-token SELECT: exact token string,
`used = false`, `expiresAt > now`. -/
def findValidResetToken (db : DB) (token : String) (now : Nat) :
    Option TokenRow :=
  db.passwordResetTokens.find?
    (fun r => r.token == token && r.used == false && decide (now < r.expiresAt))

/-- One store write of `resetPassword`, for observing statement order. -/
inductive WriteEv where
  | setUserPassword (userId : Nat)
  | markResetTokenUsed (tokenId : Nat)
deriving DecidableEq, Repr

/-- `db.update(users).set({password, updatedAt}).where(eq(users.id, userId))`. -/
def setUserPasswordStep (db : DB) (userId : Nat) (h : BcryptHash)
    (now : Nat) : DB :=
  { db with
    users := db.users.map
      (fun u => if u.id == userId then
          { u with password := h, updatedAt := now } else u) }

/-- `db.update(passwordResetTokens).set({used: true}).where(eq(id, tokenId))`.
The `where` clause matches on the row id only — it is not conditioned
on `used = false`. -/
def markResetTokenUsedStep (db : DB) (tokenId : Nat) : DB :=
  { db with
    passwordResetTokens := db.passwordResetTokens.map
      (fun r => if r.id == tokenId then { r with used := true } else r) }

/-- Everything `AuthService.resetPassword` does after its SELECT, as a
function of the row that SELECT returned: throw when none, otherwise
hash the new password, write it to the user row, then mark the token
used.  Also returns the list of store writes in execution order. -/
def resetPasswordWritePhase (db : DB) (found : Option TokenRow)
    (newPassword : String) (now salt : Nat) :
    Except AuthErr OkMsg × DB × List WriteEv :=
  match found with
  | none => (.error (.thrown "Invalid or expired reset token"), db, [])
  | some tokenRecord =>
      let hashedPassword := bcryptHash newPassword salt
      let db1 := setUserPasswordStep db tokenRecord.userId hashedPassword now
      let db2 := markResetTokenUsedStep db1 tokenRecord.id
      (.ok ⟨true, "Password reset successful"⟩, db2,
       [.setUserPassword tokenRecord.userId,
        .markResetTokenUsed tokenRecord.id])

/-- `AuthService.resetPassword(token, newPassword)`: the SELECT followed
by the write phase. -/
def resetPassword (db : DB) (token newPassword : String) (now salt : Nat) :
    Except AuthErr OkMsg × DB × List WriteEv :=
  resetPasswordWritePhase db (findValidResetToken db token now)
    newPassword now salt

/-- Two concurrent `resetPassword` calls carrying the same token string,
under the schedule in which both SELECTs execute before either caller's
UPDATEs (each statement is an independent store round-trip, so this
interleaving is admitted by the store's per-statement atomicity). -/
def resetPasswordRace (db : DB) (token pwA pwB : String)
    (now saltA saltB : Nat) :
    Except AuthErr OkMsg × Except AuthErr OkMsg × DB :=
  let foundA := findValidResetToken db token now
  let foundB := findValidResetToken db token now
  let (resA, db1, _) := resetPasswordWritePhase db foundA pwA now saltA
  let (resB, db2, _) := resetPasswordWritePhase db1 foundB pwB now saltB
  (resA, resB, db2)

/-- The `where` clause of the verification-token SELECT. -/
def findValidVerificationToken (db : DB) (token : String) (now : Nat) :
    Option TokenRow :=
  db.emailVerificationTokens.find?
    (fun r => r.token == token && r.used == false && decide (now < r.expiresAt))

/-- `db.update(users).set({isVerified: true, updatedAt}).where(eq(users.id, userId))`. -/
def setUserVerifiedStep (db : DB) (userId : Nat) (now : Nat) : DB :=
  { db with
    users := db.users.map
      (fun u => if u.id == userId then
          { u with isVerified := true, updatedAt := now } else u) }

/-- `db.update(emailVerificationTokens).set({used: true}).where(eq(id, tokenId))`. -/
def markVerificationTokenUsedStep (db : DB) (tokenId : Nat) : DB :=
  { db with
    emailVerificationTokens := db.emailVerificationTokens.map
      (fun r => if r.id == tokenId then { r with used := true } else r) }

/-- `AuthService.verifyEmail(token)`: SELECT the live token row, set the
owner's verified flag, mark the token used. -/
def verifyEmail (db : DB) (token : String) (now : Nat) :
    Except AuthErr OkMsg × DB :=
  match findValidVerificationToken db token now with
  | none => (.error (.thrown "Invalid or expired verification token"), db)
  | some tokenRecord =>
      let db1 := setUserVerifiedStep db tokenRecord.userId now
      let db2 := markVerificationTokenUsedStep db1 tokenRecord.id
      (.ok ⟨true, "Email verified successfully"⟩, db2)

/-- The `syncData` payload: an optional list per collection key
(`none` = key absent from the client JSON). -/
structure SyncData where
  favorites : Option (List AnimeEntry)
  watchlist : Option (List AnimeEntry)
  watchHistory : Option (List HistoryEntry)
deriving DecidableEq, Repr

/-- The per-collection counts in the `synced` result object (`none` =
key absent because that collection was not in the payload). -/
structure SyncCounts where
  favorites : Option Nat
  watchlist : Option Nat
  watchHistory : Option Nat
deriving DecidableEq, Repr

/-- The success payload of `AuthService.syncUserData`. -/
structure SyncResult where
  success : Bool
  synced : SyncCounts
deriving DecidableEq, Repr

/-- `syncData.favorites.map(fav => ({userId, animeId: fav.animeId || fav.id, animeData: fav}))`. -/
def favRowOfEntry (userId : Nat) (fav : AnimeEntry) : FavoriteRow :=
  ⟨userId, jsOrStr fav.animeId fav.id, fav⟩

/-- `syncData.watchlist.map(item => ({userId, animeId: item.animeId || item.id, status: item.status || 'watching', animeData: item}))`. -/
def watchlistRowOfEntry (userId : Nat) (item : AnimeEntry) : WatchlistRow :=
  ⟨userId, jsOrStr item.animeId item.id, jsOrStr item.status "watching", item⟩

/-- The watch-history row built from one submitted entry
(`watchedAt: item.watchedAt ? new Date(item.watchedAt) : new Date()`). -/
def historyRowOfEntry (userId : Nat) (now : Nat) (item : HistoryEntry) :
    WatchHistoryRow :=
  ⟨userId, item.animeId, item.episodeId, item.episodeNumber,
   jsOrNat item.progress 0, jsOrNat item.duration 0,
   jsOrBool item.completed false, jsOrNat item.watchedAt now⟩

/-- The favorites block of `AuthService.syncUserData`: when the key is
present, delete all of the user's favorites rows and insert the mapped
submitted entries (the source guards the insert with `length > 0`,
skipping the empty insert), recording the submitted length. -/
def syncFavoritesStep (db : DB) (userId : Nat)
    (favs? : Option (List AnimeEntry)) : Option Nat × DB :=
  match favs? with
  | some favs =>
      let cleared :=
        db.favorites.filter (fun (f : FavoriteRow) => !(f.userId == userId))
      let inserted :=
        if favs.length > 0 then favs.map (favRowOfEntry userId) else []
      (some favs.length, { db with favorites := cleared ++ inserted })
  | none => (none, db)

/-- The watchlist block of `AuthService.syncUserData`. -/
def syncWatchlistStep (db : DB) (userId : Nat)
    (items? : Option (List AnimeEntry)) : Option Nat × DB :=
  match items? with
  | some items =>
      let cleared :=
        db.watchlist.filter (fun (w : WatchlistRow) => !(w.userId == userId))
      let inserted :=
        if items.length > 0 then items.map (watchlistRowOfEntry userId) else []
      (some items.length, { db with watchlist := cleared ++ inserted })
  | none => (none, db)

/-- The watch-history block of `AuthService.syncUserData`. -/
def syncWatchHistoryStep (db : DB) (userId : Nat)
    (items? : Option (List HistoryEntry)) (now : Nat) : Option Nat × DB :=
  match items? with
  | some items =>
      let cleared :=
        db.watchHistory.filter (fun (h : WatchHistoryRow) => !(h.userId == userId))
      let inserted :=
        if items.length > 0 then items.map (historyRowOfEntry userId now) else []
      (some items.length, { db with watchHistory := cleared ++ inserted })
  | none => (none, db)

/-- `AuthService.syncUserData(userId, syncData)`: the three collection
blocks in source order, then the `{ success: true, synced }` result. -/
def syncUserData (db : DB) (userId : Nat) (syncData : SyncData)
    (now : Nat) : SyncResult × DB :=
  let fav := syncFavoritesStep db userId syncData.favorites
  let wl := syncWatchlistStep fav.2 userId syncData.watchlist
  let wh := syncWatchHistoryStep wl.2 userId syncData.watchHistory now
  (⟨true, ⟨fav.1, wl.1, wh.1⟩⟩, wh.2)

/-- The value returned by `AuthService.fetchUserData`. -/
structure FetchResult where
  favorites : List AnimeEntry
  watchlist : List AnimeEntry
  watchHistory : List WatchHistoryRow
deriving DecidableEq, Repr

/-- `AuthService.fetchUserData(userId)`: the user's favorites as their
stored `animeData`, the watchlist re-hydrated as
`{...animeData, status}`, and the history rows as-is. -/
def fetchUserData (db : DB) (userId : Nat) : FetchResult :=
  ⟨(db.favorites.filter (fun f => f.userId == userId)).map (fun f => f.animeData),
   (db.watchlist.filter (fun w => w.userId == userId)).map
     (fun w => { w.animeData with status := some w.status }),
   db.watchHistory.filter (fun h => h.userId == userId)⟩

/-! Concrete stores used by counterexamples and witnesses. -/

/-- An empty store. -/
def emptyDB : DB := ⟨[], [], [], [], [], [], [], 1, 1, 1, 1⟩

/-- A registered user, id 1, bcrypt hash of `"pw"` with salt 0. -/
def aliceRow : UserRow :=
  ⟨1, "a@b.c", "alice", ⟨0, "pw"⟩, "avatar_1", false, "{}", 0, 0⟩

/-- A store holding just `aliceRow`. -/
def dbOneUser : DB := { emptyDB with users := [aliceRow], nextUserId := 2 }

/-- `dbOneUser` plus one live password-reset token `"rtok"` for user 1
(unused, expires at 100). -/
def dbReset : DB :=
  { dbOneUser with
    passwordResetTokens := [⟨1, 1, "rtok", 100, false, 0⟩],
    nextResetTokenId := 2 }

/-- `dbReset` plus one live email-verification token `"vtok"` for user 1. -/
def dbTokens : DB :=
  { dbReset with
    emailVerificationTokens := [⟨1, 1, "vtok", 100, false, 0⟩],
    nextEmailTokenId := 2 }

/-- A store whose counter for date `"d"` stands at 299. -/
def db299 : DB :=
  { emptyDB with dailySignups := [⟨1, "d", 299⟩], nextSignupId := 2 }

/-- A store whose counter for date `"d"` stands at 300. -/
def db300 : DB :=
  { emptyDB with dailySignups := [⟨1, "d", 300⟩], nextSignupId := 2 }

/-- Registration input used by witnesses. -/
def aliceInput : RegisterInput := ⟨"a@b.c", "alice", "pw", none⟩

/-- Per-request environment used by witnesses: limit 300, ttl 7. -/
def envW : Env := ⟨"2026-10-12", 1000, 300, 0, "vtok", "secret", 7⟩

/-- The value `register emptyDB aliceInput envW` returns. -/
def regW : RegisterResult :=
  ⟨⟨1, "a@b.c", "alice", "avatar_1", false, "{}", 1000, 1000⟩,
   ⟨1, 1000, 1007, "secret"⟩, "vtok"⟩

/-- A user with id 7 and a live verification token `"vtok"` owned by 7. -/
def dbOwner7 : DB :=
  { emptyDB with
    users := [⟨7, "u7@x.y", "seven", ⟨0, "pw7"⟩, "avatar_1", false, "{}", 0, 0⟩],
    emailVerificationTokens := [⟨1, 7, "vtok", 100, false, 0⟩],
    nextUserId := 8, nextEmailTokenId := 2 }

/-- The same store except the token (and user) id is 8: the two stores
differ in the token's owning user id. -/
def dbOwner8 : DB :=
  { emptyDB with
    users := [⟨8, "u8@x.y", "eight", ⟨0, "pw8"⟩, "avatar_1", false, "{}", 0, 0⟩],
    emailVerificationTokens := [⟨1, 8, "vtok", 100, false, 0⟩],
    nextUserId := 9, nextEmailTokenId := 2 }

/-! General list helpers used by the theorems below. -/

/-- `find?` commutes with a map that does not change the predicate's
verdict on any element. -/
theorem find?_map_invariant {α : Type} (g : α → α) (p : α → Bool)
    (hg : ∀ a, p (g a) = p a) (l : List α) :
    (l.map g).find? p = (l.find? p).map g := by
  have hpg : p ∘ g = p := funext hg
  rw [List.find?_map, hpg]

/-- `find?` over an append whose left part has no hit. -/
theorem find?_append_of_none {α : Type} {p : α → Bool} {l₁ : List α}
    (h : l₁.find? p = none) (l₂ : List α) :
    (l₁ ++ l₂).find? p = l₂.find? p := by
  rw [List.find?_append, h, Option.none_or]

/-- Filtering for `p` after clearing all `p`-rows and appending
all-`p` rows yields exactly the appended rows. -/
theorem filter_cleared_append {α : Type} (p : α → Bool) (l m : List α)
    (hm : ∀ x ∈ m, p x = true) :
    ((l.filter fun x => !(p x)) ++ m).filter p = m := by
  rw [List.filter_append, List.filter_filter]
  have h1 : (l.filter fun a => p a && !(p a)) = [] := by
    rw [List.filter_eq_nil_iff]
    intro a _ hpa
    cases hp : p a <;> simp [hp] at hpa
  have h2 : m.filter p = m := List.filter_eq_self.mpr (by simpa using hm)
  rw [h1, h2, List.nil_append]

/-- Clearing all `p`-rows and appending all-`p` rows does not change
the rows outside `p`. -/
theorem filter_not_cleared_append {α : Type} (p : α → Bool) (l m : List α)
    (hm : ∀ x ∈ m, p x = true) :
    ((l.filter fun x => !(p x)) ++ m).filter (fun x => !(p x))
      = l.filter (fun x => !(p x)) := by
  rw [List.filter_append, List.filter_filter]
  have h1 : (l.filter fun a => !(p a) && !(p a)) = l.filter (fun x => !(p x)) := by
    congr 1
    funext a
    cases p a <;> rfl
  have h2 : m.filter (fun x => !(p x)) = [] := by
    rw [List.filter_eq_nil_iff]
    intro a ha
    rw [hm a ha]
    simp
  rw [h1, h2, List.append_nil]

/-- The source's `length > 0` guard around a bulk insert is a no-op:
inserting the mapped empty list is the same as skipping the insert. -/
theorem length_guard_map {α β : Type} (f : α → β) (l : List α) :
    (if l.length > 0 then l.map f else []) = l.map f := by
  cases l with
  | nil => rfl
  | cons a t => simp

/-! Claim theorems. -/

/-- Claim C8: for every email and password pair for which `login`
fails, the failure value is identical whether no user exists with that
email or the stored hash does not match: every failure is the one
`Invalid credentials` error, so the two runs are indistinguishable. -/
theorem login_failure_indistinguishable (db : DB) (email password : String)
    (now : Nat) (jwtSecret : String) (jwtTtl : Nat) (err : AuthErr)
    (h : login db email password now jwtSecret jwtTtl = .error err) :
    err = .thrown "Invalid credentials" := by
  unfold login at h
  split at h
  · simp only [Except.error.injEq] at h
    exact h.symm
  · split at h
    · simp at h
    · simp only [Except.error.injEq] at h
      exact h.symm

/-- Witness for C8: the no-such-email run (empty store) and the
wrong-password run (`dbOneUser`, wrong password) both fail, and the
theorem applies to both, pinning the identical failure value. -/
theorem login_failure_indistinguishable_witness :
    (login emptyDB "a@b.c" "pw" 0 "s" 7 = .error (.thrown "Invalid credentials") ∧
     login dbOneUser "a@b.c" "wrong" 0 "s" 7 = .error (.thrown "Invalid credentials")) ∧
    AuthErr.thrown "Invalid credentials" = .thrown "Invalid credentials" ∧
    AuthErr.thrown "Invalid credentials" = .thrown "Invalid credentials" :=
  ⟨⟨by decide, by decide⟩,
   login_failure_indistinguishable emptyDB "a@b.c" "pw" 0 "s" 7
     (.thrown "Invalid credentials") (by decide),
   login_failure_indistinguishable dbOneUser "a@b.c" "wrong" 0 "s" 7
     (.thrown "Invalid credentials") (by decide)⟩

/-- Claim C9: every user projection returned by a successful
`register`, `login`, `getUserById` or `updateProfile` is the
`stripPassword` image of a stored row, and `stripPassword` is
invariant under the stored password hash — the projection type has no
password field and its value never depends on the hash. -/
theorem userProjection_omits_password_hash :
    (∀ (u : UserRow) (hsh : BcryptHash),
       stripPassword { u with password := hsh } = stripPassword u) ∧
    (∀ db ud env r, (register db ud env).1 = .ok r →
       ∃ row : UserRow, r.user = stripPassword row) ∧
    (∀ db email pw now s ttl lr, login db email pw now s ttl = .ok lr →
       ∃ row ∈ db.users, lr.user = stripPassword row) ∧
    (∀ db uid u, getUserById db uid = .ok u →
       ∃ row ∈ db.users, u = stripPassword row) ∧
    (∀ db uid p now res, (updateProfile db uid p now).1 = .ok res →
       ∃ row : UserRow, res = stripPassword row) := by
  refine ⟨fun u hsh => rfl, ?_, ?_, ?_, ?_⟩
  · intro db ud env r h
    simp only [register] at h
    split at h
    · simp at h
    · split at h
      · simp at h
      · split at h
        · simp at h
        · simp only [Except.ok.injEq] at h
          exact ⟨_, congrArg RegisterResult.user h.symm⟩
  · intro db email pw now s ttl lr h
    unfold login at h
    split at h
    · simp at h
    · next user hfind =>
      split at h
      · simp only [Except.ok.injEq] at h
        exact ⟨user, List.mem_of_find?_eq_some hfind,
          congrArg LoginResult.user h.symm⟩
      · simp at h
  · intro db uid u h
    unfold getUserById at h
    split at h
    · simp at h
    · next user hfind =>
      simp only [Except.ok.injEq] at h
      exact ⟨user, List.mem_of_find?_eq_some hfind, h.symm⟩
  · intro db uid p now res h
    simp only [updateProfile] at h
    split at h
    · simp at h
    · split at h
      · simp at h
      · simp only [Except.ok.injEq] at h
        exact ⟨_, h.symm⟩

/-- Witness for C9: the theorem applied to concrete successful
`login` and `getUserById` calls on `dbOneUser`. -/
theorem userProjection_omits_password_hash_witness :
    (login dbOneUser "a@b.c" "pw" 0 "s" 7
       = .ok ⟨stripPassword aliceRow, ⟨1, 0, 7, "s"⟩⟩ ∧
     getUserById dbOneUser 1 = .ok (stripPassword aliceRow)) ∧
    (∃ row ∈ dbOneUser.users,
       (LoginResult.mk (stripPassword aliceRow) ⟨1, 0, 7, "s"⟩).user
         = stripPassword row) ∧
    (∃ row ∈ dbOneUser.users, stripPassword aliceRow = stripPassword row) :=
  ⟨⟨by decide, by decide⟩,
   userProjection_omits_password_hash.2.2.1 dbOneUser "a@b.c" "pw" 0 "s" 7
     ⟨stripPassword aliceRow, ⟨1, 0, 7, "s"⟩⟩ (by decide),
   userProjection_omits_password_hash.2.2.2.1 dbOneUser 1
     (stripPassword aliceRow) (by decide)⟩

/-- Claim C10: `updateProfile` mutates the caller's patch object: on
every outcome the returned patch (the caller's object after the call)
is the input with its `email` and `password` keys deleted, and the
whole call behaves as if the scrubbed patch had been passed — the keys
are gone before any store access. -/
theorem updateProfile_mutates_patch (db : DB) (userId : Nat)
    (patch : Patch) (now : Nat) :
    (updateProfile db userId patch now).2.2 = scrubPatch patch ∧
    ((updateProfile db userId patch now).2.2).email = none ∧
    ((updateProfile db userId patch now).2.2).password = none ∧
    updateProfile db userId patch now
      = updateProfile db userId (scrubPatch patch) now := by
  have hscrub : ∀ p : Patch, scrubPatch (scrubPatch p) = scrubPatch p :=
    fun p => rfl
  have h1 : (updateProfile db userId patch now).2.2 = scrubPatch patch := by
    simp only [updateProfile]
    split
    · rfl
    · split <;> rfl
  refine ⟨h1, ?_, ?_, ?_⟩
  · rw [h1]; rfl
  · rw [h1]; rfl
  · unfold updateProfile
    rw [hscrub]

/-- The order asserted by claim C1, read off the write trace of a
successful `resetPassword`: the token-consuming write (`used = true`)
comes first. -/
def marksTokenUsedFirst (tr : List WriteEv) : Bool :=
  match tr with
  | .markResetTokenUsed _ :: _ => true
  | _ => false

/-- Counterexample to C1 as stated: on `dbReset` the call succeeds, but
its write trace sets the user's password hash first and only then marks
the token used — it does not consume the token first. -/
theorem resetPassword_order_counterexample :
    (resetPassword dbReset "rtok" "npw" 5 3).1
      = .ok ⟨true, "Password reset successful"⟩ ∧
    (resetPassword dbReset "rtok" "npw" 5 3).2.2
      = [.setUserPassword 1, .markResetTokenUsed 1] ∧
    marksTokenUsedFirst (resetPassword dbReset "rtok" "npw" 5 3).2.2
      = false := by
  refine ⟨rfl, rfl, rfl⟩

/-- Claim C1 as amended: for every stored reset token that is unused
and unexpired, `resetPassword` first sets the user's new password hash
and then consumes the token (marks it used), returning Ok; for every
token string that is absent, already used, or expired it fails with
the invalid-or-expired error and leaves the store (hence the user's
password hash) unchanged. -/
theorem resetPassword_consumes_and_sets (db : DB)
    (token newPassword : String) (now salt : Nat) :
    (∀ rec, findValidResetToken db token now = some rec →
       (resetPassword db token newPassword now salt).1
         = .ok ⟨true, "Password reset successful"⟩ ∧
       (resetPassword db token newPassword now salt).2.2
         = [.setUserPassword rec.userId, .markResetTokenUsed rec.id] ∧
       (∀ u, db.users.find? (fun x => x.id == rec.userId) = some u →
         ((resetPassword db token newPassword now salt).2.1).users.find?
             (fun x => x.id == rec.userId)
           = some { u with password := bcryptHash newPassword salt,
                           updatedAt := now }) ∧
       (∀ trow, db.passwordResetTokens.find? (fun x => x.id == rec.id)
             = some trow →
         ((resetPassword db token newPassword now salt).2.1).passwordResetTokens.find?
             (fun x => x.id == rec.id)
           = some { trow with used := true })) ∧
    (findValidResetToken db token now = none →
       resetPassword db token newPassword now salt
         = (.error (.thrown "Invalid or expired reset token"), db, [])) := by
  constructor
  · intro rec hrec
    simp only [resetPassword, resetPasswordWritePhase, hrec]
    refine ⟨trivial, trivial, ?_, ?_⟩
    · intro u hu
      simp only [markResetTokenUsedStep, setUserPasswordStep]
      rw [find?_map_invariant _ _ (fun a => ?_), hu]
      · have h5 : u.id = rec.userId := by
          simpa using List.find?_some hu
        simp [h5]
      · split <;> rfl
    · intro trow htrow
      simp only [markResetTokenUsedStep, setUserPasswordStep]
      rw [find?_map_invariant _ _ (fun a => ?_), htrow]
      · have h5 : trow.id = rec.id := by
          simpa using List.find?_some htrow
        simp [h5]
      · split <;> rfl
  · intro hnone
    simp only [resetPassword, resetPasswordWritePhase, hnone]

/-- Witness for the amended C1: the theorem applied to `dbReset` with
its live token and to the already-consumed run. -/
theorem resetPassword_consumes_and_sets_witness :
    (findValidResetToken dbReset "rtok" 5 = some ⟨1, 1, "rtok", 100, false, 0⟩ ∧
     findValidResetToken dbReset "gone" 5 = none) ∧
    (resetPassword dbReset "rtok" "npw" 5 3).1
      = .ok ⟨true, "Password reset successful"⟩ ∧
    resetPassword dbReset "gone" "npw" 5 3
      = (.error (.thrown "Invalid or expired reset token"), dbReset, []) :=
  ⟨⟨by decide, by decide⟩,
   ((resetPassword_consumes_and_sets dbReset "rtok" "npw" 5 3).1
      ⟨1, 1, "rtok", 100, false, 0⟩ (by decide)).1,
   (resetPassword_consumes_and_sets dbReset "gone" "npw" 5 3).2 (by decide)⟩

/-- Claim C2, evaluated at the failing schedule: with one live reset
token, two concurrent `resetPassword` calls whose SELECTs both run
before either caller's UPDATEs BOTH return success — the consuming
update is conditioned on the row id only, not on `used = false`, so
the second caller's update succeeds even though the row is already
used at its write time (the store ends with the second caller's hash). -/
theorem resetToken_race_both_succeed :
    (resetPasswordRace dbReset "rtok" "pwA" "pwB" 5 3 4).1
      = .ok ⟨true, "Password reset successful"⟩ ∧
    (resetPasswordRace dbReset "rtok" "pwA" "pwB" 5 3 4).2.1
      = .ok ⟨true, "Password reset successful"⟩ ∧
    ((resetPasswordWritePhase dbReset (findValidResetToken dbReset "rtok" 5)
        "pwA" 5 3).2.1).passwordResetTokens.map TokenRow.used = [true] ∧
    ((resetPasswordRace dbReset "rtok" "pwA" "pwB" 5 3 4).2.2).users.map
        UserRow.password = [⟨4, "pwB"⟩] := by
  refine ⟨rfl, rfl, rfl, rfl⟩

/-- Claim C6, evaluated: updating a non-existent user id does not fail
with the not-found error — the row update matches nothing,
`.returning()` yields an empty array, and destructuring `undefined`
raises a runtime `TypeError`.  The second half of the claim is true:
for an existing user, `email` and `password` entries in the patch are
silently ignored (the stored email and hash are unchanged and the call
succeeds). -/
theorem updateProfile_missing_user_typeError :
    (updateProfile dbOneUser 42 ⟨some "evil@x.y", some "hacked", none,
        some "avatar_2", none⟩ 7).1
      = .error (.typeError "Cannot destructure property of undefined") ∧
    (updateProfile dbOneUser 42 ⟨some "evil@x.y", some "hacked", none,
        some "avatar_2", none⟩ 7).1
      ≠ .error (.thrown "User not found") ∧
    (updateProfile dbOneUser 1 ⟨some "evil@x.y", some "hacked", none,
        some "avatar_2", none⟩ 7).1
      = .ok ⟨1, "a@b.c", "alice", "avatar_2", false, "{}", 0, 7⟩ ∧
    ((updateProfile dbOneUser 1 ⟨some "evil@x.y", some "hacked", none,
        some "avatar_2", none⟩ 7).2.1).users.map UserRow.email
      = ["a@b.c"] ∧
    ((updateProfile dbOneUser 1 ⟨some "evil@x.y", some "hacked", none,
        some "avatar_2", none⟩ 7).2.1).users.map UserRow.password
      = [⟨0, "pw"⟩] := by
  refine ⟨rfl, by decide, rfl, rfl, rfl⟩

/-- Counterexample to C5 as stated: the successful first consumption
returns only `{ success, message }` — the identical value whether the
token's owning user id is 7 (`dbOwner7`) or 8 (`dbOwner8`) — so the
call does not return the owning user id. -/
theorem consume_returns_no_userid_counterexample :
    (verifyEmail dbOwner7 "vtok" 5).1 = (verifyEmail dbOwner8 "vtok" 5).1 ∧
    (findValidVerificationToken dbOwner7 "vtok" 5).map TokenRow.userId
      = some 7 ∧
    (findValidVerificationToken dbOwner8 "vtok" 5).map TokenRow.userId
      = some 8 ∧
    (verifyEmail dbOwner7 "vtok" 5).1
      = .ok ⟨true, "Email verified successfully"⟩ := by
  refine ⟨rfl, rfl, rfl, rfl⟩

/-- Claim C5 as amended: consuming an ephemeral token twice
sequentially (verifyEmail for a verify-email token, resetPassword for
a reset-password token) has the first call succeed — returning the
success payload; the owning user id is applied to the store, not
returned — and the second call with the same token string fail with
the invalid-or-expired error, leaving all state unchanged on the
second call.  The uniqueness hypotheses mirror the schema's UNIQUE
constraint on the token column. -/
theorem consume_twice (db : DB) (token : String) (now now2 : Nat) :
    (∀ rec, findValidVerificationToken db token now = some rec →
       (∀ r' ∈ db.emailVerificationTokens, r'.token = token → r'.id = rec.id) →
       (verifyEmail db token now).1
         = .ok ⟨true, "Email verified successfully"⟩ ∧
       verifyEmail (verifyEmail db token now).2 token now2
         = (.error (.thrown "Invalid or expired verification token"),
            (verifyEmail db token now).2)) ∧
    (∀ pw pw2 salt salt2 rec, findValidResetToken db token now = some rec →
       (∀ r' ∈ db.passwordResetTokens, r'.token = token → r'.id = rec.id) →
       (resetPassword db token pw now salt).1
         = .ok ⟨true, "Password reset successful"⟩ ∧
       resetPassword (resetPassword db token pw now salt).2.1 token pw2 now2 salt2
         = (.error (.thrown "Invalid or expired reset token"),
            (resetPassword db token pw now salt).2.1, [])) := by
  constructor
  · intro rec hrec huniq
    have hstep : verifyEmail db token now
        = (.ok ⟨true, "Email verified successfully"⟩,
           markVerificationTokenUsedStep
             (setUserVerifiedStep db rec.userId now) rec.id) := by
      simp only [verifyEmail, hrec]
    refine ⟨by rw [hstep], ?_⟩
    have hnone : findValidVerificationToken (verifyEmail db token now).2
        token now2 = none := by
      rw [hstep]
      simp only [findValidVerificationToken, markVerificationTokenUsedStep,
        setUserVerifiedStep]
      rw [List.find?_eq_none]
      intro x hx
      rcases List.mem_map.mp hx with ⟨r', hr', hxr⟩
      subst hxr
      by_cases ht : r'.token = token
      · have hid : r'.id = rec.id := huniq r' hr' ht
        simp [hid, ht]
      · split <;> simp [ht]
    conv_lhs => rw [verifyEmail]
    rw [hnone]
  · intro pw pw2 salt salt2 rec hrec huniq
    have hstep : resetPassword db token pw now salt
        = (.ok ⟨true, "Password reset successful"⟩,
           markResetTokenUsedStep
             (setUserPasswordStep db rec.userId (bcryptHash pw salt) now) rec.id,
           [.setUserPassword rec.userId, .markResetTokenUsed rec.id]) := by
      simp only [resetPassword, resetPasswordWritePhase, hrec]
    refine ⟨by rw [hstep], ?_⟩
    have hnone : findValidResetToken (resetPassword db token pw now salt).2.1
        token now2 = none := by
      rw [hstep]
      simp only [findValidResetToken, markResetTokenUsedStep,
        setUserPasswordStep]
      rw [List.find?_eq_none]
      intro x hx
      rcases List.mem_map.mp hx with ⟨r', hr', hxr⟩
      subst hxr
      by_cases ht : r'.token = token
      · have hid : r'.id = rec.id := huniq r' hr' ht
        simp [hid, ht]
      · split <;> simp [ht]
    conv_lhs => rw [resetPassword]
    rw [hnone]
    rfl

/-- Witness for the amended C5: both double-consumption runs on
`dbTokens`, hypotheses discharged by evaluation. -/
theorem consume_twice_witness :
    ((verifyEmail dbTokens "vtok" 5).1
       = .ok ⟨true, "Email verified successfully"⟩ ∧
     verifyEmail (verifyEmail dbTokens "vtok" 5).2 "vtok" 6
       = (.error (.thrown "Invalid or expired verification token"),
          (verifyEmail dbTokens "vtok" 5).2)) ∧
    ((resetPassword dbTokens "rtok" "npw" 5 3).1
       = .ok ⟨true, "Password reset successful"⟩ ∧
     resetPassword (resetPassword dbTokens "rtok" "npw" 5 3).2.1 "rtok" "npw2" 6 4
       = (.error (.thrown "Invalid or expired reset token"),
          (resetPassword dbTokens "rtok" "npw" 5 3).2.1, [])) :=
  ⟨(consume_twice dbTokens "vtok" 5 6).1 ⟨1, 1, "vtok", 100, false, 0⟩
     (by decide) (by decide),
   (consume_twice dbTokens "rtok" 5 6).2 "npw" "npw2" 3 4
     ⟨1, 1, "rtok", 100, false, 0⟩ (by decide) (by decide)⟩

/-- One registration adds exactly one to the day's stored count. -/
theorem signupCountFor_increment (db : DB) (today : String) :
    signupCountFor (incrementSignupCount db today) today
      = signupCountFor db today + 1 := by
  unfold incrementSignupCount
  cases hf : db.dailySignups.find? (fun r => r.date == today) with
  | some r =>
      simp only [hf, signupCountFor]
      rw [find?_map_invariant _ _ (fun a => ?_), hf]
      · simp
      · split <;> rfl
  | none =>
      simp only [hf, signupCountFor]
      rw [find?_append_of_none hf]
      simp

/-- The limit check's lazy row creation does not change the day's
count. -/
theorem signupCountFor_check (db : DB) (today : String) (limit : Nat) :
    signupCountFor (checkDailySignupLimit db today limit).2 today
      = signupCountFor db today := by
  unfold checkDailySignupLimit
  cases hf : db.dailySignups.find? (fun r => r.date == today) with
  | none =>
      simp only [hf, signupCountFor]
      rw [find?_append_of_none hf]
      simp
  | some r =>
      simp only [hf]
      split <;> rfl

/-- `signupCountFor` reads only the `dailySignups` table. -/
theorem signupCountFor_congr (db db' : DB) (today : String)
    (h : db.dailySignups = db'.dailySignups) :
    signupCountFor db today = signupCountFor db' today := by
  unfold signupCountFor
  rw [h]

/-- Claim C4: with the configured daily limit 300, the signup-limit
check allows while the day's count is 299 (so the 300th reservation
goes through), denies once the count has reached 300 (the 301st is
refused, reporting count 300), and every successful registration
increments that day's stored counter by exactly one. -/
theorem dailySignupLimit_300 (db : DB) (today : String) :
    (signupCountFor db today = 299 →
       ((checkDailySignupLimit db today 300).1).allowed = true) ∧
    (signupCountFor db today = 300 →
       ((checkDailySignupLimit db today 300).1).allowed = false ∧
       ((checkDailySignupLimit db today 300).1).count = 300) ∧
    (∀ ud env r, env.limit = 300 →
       (register db ud env).1 = .ok r →
       signupCountFor (register db ud env).2 env.today
         = signupCountFor db env.today + 1) := by
  refine ⟨?_, ?_, ?_⟩
  · intro h299
    unfold signupCountFor at h299
    unfold checkDailySignupLimit
    cases hf : db.dailySignups.find? (fun r => r.date == today) with
    | none => simp [hf]
    | some r =>
        simp only [hf] at h299
        simp only [hf]
        rw [if_neg (by omega)]
  · intro h300
    unfold signupCountFor at h300
    unfold checkDailySignupLimit
    cases hf : db.dailySignups.find? (fun r => r.date == today) with
    | none => simp only [hf] at h300; simp at h300
    | some r =>
        simp only [hf] at h300
        simp only [hf]
        rw [if_pos (by omega)]
        exact ⟨rfl, h300⟩
  · intro ud env r _ h
    simp only [register] at h ⊢
    split
    · next hallow =>
      rw [if_pos hallow] at h
      simp at h
    · next hallow =>
      rw [if_neg hallow] at h
      split
      · next x hemail =>
        rw [hemail] at h
        simp at h
      · next hemail =>
        rw [hemail] at h
        split
        · next x husername =>
          rw [husername] at h
          simp at h
        · next husername =>
          refine Eq.trans (signupCountFor_increment _ env.today) ?_
          refine congrArg (fun n => n + 1) ?_
          refine Eq.trans ?_ (signupCountFor_check db env.today env.limit)
          exact signupCountFor_congr _ _ env.today rfl

/-- Witness for C4: a day at count 299 is allowed, a day at count 300
is denied with count 300, and a concrete successful registration takes
the day's count from 0 to 1. -/
theorem dailySignupLimit_300_witness :
    (signupCountFor db299 "d" = 299 ∧
     ((checkDailySignupLimit db299 "d" 300).1).allowed = true) ∧
    (signupCountFor db300 "d" = 300 ∧
     ((checkDailySignupLimit db300 "d" 300).1).allowed = false ∧
     ((checkDailySignupLimit db300 "d" 300).1).count = 300) ∧
    ((register emptyDB aliceInput envW).1 = .ok regW ∧
     signupCountFor (register emptyDB aliceInput envW).2 envW.today
       = signupCountFor emptyDB envW.today + 1) :=
  ⟨⟨by decide, (dailySignupLimit_300 db299 "d").1 (by decide)⟩,
   ⟨by decide, (dailySignupLimit_300 db300 "d").2.1 (by decide)⟩,
   ⟨by decide, (dailySignupLimit_300 emptyDB envW.today).2.2 aliceInput envW
      regW (by decide) (by decide)⟩⟩

/-- The favorites block leaves the other two collections untouched. -/
theorem syncFavoritesStep_frame (db : DB) (uid : Nat)
    (o : Option (List AnimeEntry)) :
    ((syncFavoritesStep db uid o).2).watchlist = db.watchlist ∧
    ((syncFavoritesStep db uid o).2).watchHistory = db.watchHistory := by
  cases o <;> exact ⟨rfl, rfl⟩

/-- The watchlist block leaves the other two collections untouched. -/
theorem syncWatchlistStep_frame (db : DB) (uid : Nat)
    (o : Option (List AnimeEntry)) :
    ((syncWatchlistStep db uid o).2).favorites = db.favorites ∧
    ((syncWatchlistStep db uid o).2).watchHistory = db.watchHistory := by
  cases o <;> exact ⟨rfl, rfl⟩

/-- The watch-history block leaves the other two collections untouched. -/
theorem syncWatchHistoryStep_frame (db : DB) (uid : Nat)
    (o : Option (List HistoryEntry)) (now : Nat) :
    ((syncWatchHistoryStep db uid o now).2).favorites = db.favorites ∧
    ((syncWatchHistoryStep db uid o now).2).watchlist = db.watchlist := by
  cases o <;> exact ⟨rfl, rfl⟩

/-- Evaluation of the favorites block on a present key. -/
theorem syncFavoritesStep_some (db : DB) (uid : Nat) (l : List AnimeEntry) :
    syncFavoritesStep db uid (some l)
      = (some l.length,
         { db with favorites :=
             db.favorites.filter (fun f => !(f.userId == uid))
               ++ l.map (favRowOfEntry uid) }) := by
  simp only [syncFavoritesStep, length_guard_map]

/-- Evaluation of the watchlist block on a present key. -/
theorem syncWatchlistStep_some (db : DB) (uid : Nat) (l : List AnimeEntry) :
    syncWatchlistStep db uid (some l)
      = (some l.length,
         { db with watchlist :=
             db.watchlist.filter (fun w => !(w.userId == uid))
               ++ l.map (watchlistRowOfEntry uid) }) := by
  simp only [syncWatchlistStep, length_guard_map]

/-- Evaluation of the watch-history block on a present key. -/
theorem syncWatchHistoryStep_some (db : DB) (uid : Nat)
    (l : List HistoryEntry) (now : Nat) :
    syncWatchHistoryStep db uid (some l) now
      = (some l.length,
         { db with watchHistory :=
             db.watchHistory.filter (fun h => !(h.userId == uid))
               ++ l.map (historyRowOfEntry uid now) }) := by
  simp only [syncWatchHistoryStep, length_guard_map]

/-- Every row built from a submitted entry belongs to the syncing user. -/
theorem favRow_userId (uid : Nat) (l : List AnimeEntry) :
    ∀ x ∈ l.map (favRowOfEntry uid), (x.userId == uid) = true := by
  intro x hx
  rcases List.mem_map.mp hx with ⟨e, _, he⟩
  subst he
  simp [favRowOfEntry]

/-- Every watchlist row built from a submitted entry belongs to the user. -/
theorem watchlistRow_userId (uid : Nat) (l : List AnimeEntry) :
    ∀ x ∈ l.map (watchlistRowOfEntry uid), (x.userId == uid) = true := by
  intro x hx
  rcases List.mem_map.mp hx with ⟨e, _, he⟩
  subst he
  simp [watchlistRowOfEntry]

/-- Every history row built from a submitted entry belongs to the user. -/
theorem historyRow_userId (uid : Nat) (now : Nat) (l : List HistoryEntry) :
    ∀ x ∈ l.map (historyRowOfEntry uid now), (x.userId == uid) = true := by
  intro x hx
  rcases List.mem_map.mp hx with ⟨e, _, he⟩
  subst he
  simp [historyRowOfEntry]

/-- Claim C7: for every user and sync payload, a collection key absent
from the payload leaves that server-side collection untouched (and
reports no count); a key present with list `l` replaces the user's
entire collection with exactly the rows built from `l` (no residual
old rows, other users' rows untouched), reports count `l.length`, and
a subsequent fetch returns exactly the submitted favorites (for the
other two collections, the authoritative snapshot built from `l`), so
an empty submitted list clears the collection and fetch returns `[]`. -/
theorem sync_replaces_collections (db : DB) (userId : Nat) (sd : SyncData)
    (now : Nat) :
    (sd.favorites = none →
       ((syncUserData db userId sd now).2).favorites = db.favorites ∧
       ((syncUserData db userId sd now).1).synced.favorites = none) ∧
    (sd.watchlist = none →
       ((syncUserData db userId sd now).2).watchlist = db.watchlist ∧
       ((syncUserData db userId sd now).1).synced.watchlist = none) ∧
    (sd.watchHistory = none →
       ((syncUserData db userId sd now).2).watchHistory = db.watchHistory ∧
       ((syncUserData db userId sd now).1).synced.watchHistory = none) ∧
    (∀ l, sd.favorites = some l →
       ((syncUserData db userId sd now).2).favorites.filter
           (fun f => f.userId == userId) = l.map (favRowOfEntry userId) ∧
       ((syncUserData db userId sd now).2).favorites.filter
           (fun f => !(f.userId == userId))
         = db.favorites.filter (fun f => !(f.userId == userId)) ∧
       (fetchUserData (syncUserData db userId sd now).2 userId).favorites = l ∧
       ((syncUserData db userId sd now).1).synced.favorites
         = some l.length) ∧
    (∀ l, sd.watchlist = some l →
       ((syncUserData db userId sd now).2).watchlist.filter
           (fun w => w.userId == userId)
         = l.map (watchlistRowOfEntry userId) ∧
       ((syncUserData db userId sd now).2).watchlist.filter
           (fun w => !(w.userId == userId))
         = db.watchlist.filter (fun w => !(w.userId == userId)) ∧
       (fetchUserData (syncUserData db userId sd now).2 userId).watchlist
         = l.map (fun e =>
             { e with status := some (jsOrStr e.status "watching") }) ∧
       ((syncUserData db userId sd now).1).synced.watchlist
         = some l.length) ∧
    (∀ l, sd.watchHistory = some l →
       ((syncUserData db userId sd now).2).watchHistory.filter
           (fun h => h.userId == userId)
         = l.map (historyRowOfEntry userId now) ∧
       ((syncUserData db userId sd now).2).watchHistory.filter
           (fun h => !(h.userId == userId))
         = db.watchHistory.filter (fun h => !(h.userId == userId)) ∧
       (fetchUserData (syncUserData db userId sd now).2 userId).watchHistory
         = l.map (historyRowOfEntry userId now) ∧
       ((syncUserData db userId sd now).1).synced.watchHistory
         = some l.length) := by
  have hfavdb : ((syncUserData db userId sd now).2).favorites
      = ((syncFavoritesStep db userId sd.favorites).2).favorites := by
    simp only [syncUserData]
    rw [(syncWatchHistoryStep_frame _ _ _ _).1, (syncWatchlistStep_frame _ _ _).1]
  have hwldb : ((syncUserData db userId sd now).2).watchlist
      = ((syncWatchlistStep (syncFavoritesStep db userId sd.favorites).2
          userId sd.watchlist).2).watchlist := by
    simp only [syncUserData]
    rw [(syncWatchHistoryStep_frame _ _ _ _).2]
  have hwhdb : ((syncUserData db userId sd now).2).watchHistory
      = ((syncWatchHistoryStep
          (syncWatchlistStep (syncFavoritesStep db userId sd.favorites).2
            userId sd.watchlist).2 userId sd.watchHistory now).2).watchHistory :=
    rfl
  have hcounts : ((syncUserData db userId sd now).1).synced
      = ⟨(syncFavoritesStep db userId sd.favorites).1,
         (syncWatchlistStep (syncFavoritesStep db userId sd.favorites).2
           userId sd.watchlist).1,
         (syncWatchHistoryStep
           (syncWatchlistStep (syncFavoritesStep db userId sd.favorites).2
             userId sd.watchlist).2 userId sd.watchHistory now).1⟩ := rfl
  refine ⟨?_, ?_, ?_, ?_, ?_, ?_⟩
  · intro hn
    rw [hfavdb, hn]
    exact ⟨rfl, by rw [hcounts, hn]; rfl⟩
  · intro hn
    rw [hwldb, hn]
    exact ⟨(syncFavoritesStep_frame db userId sd.favorites).1,
      by rw [hcounts, hn]; rfl⟩
  · intro hn
    rw [hwhdb, hn]
    refine ⟨?_, by rw [hcounts, hn]; rfl⟩
    show ((syncWatchlistStep (syncFavoritesStep db userId sd.favorites).2
        userId sd.watchlist).2).watchHistory = db.watchHistory
    rw [(syncWatchlistStep_frame _ _ _).2,
      (syncFavoritesStep_frame db userId sd.favorites).2]
  · intro l hl
    have hrows : ((syncUserData db userId sd now).2).favorites
        = db.favorites.filter (fun f => !(f.userId == userId))
            ++ l.map (favRowOfEntry userId) := by
      rw [hfavdb, hl, syncFavoritesStep_some]
    refine ⟨?_, ?_, ?_, ?_⟩
    · rw [hrows]
      exact filter_cleared_append _ _ _ (favRow_userId userId l)
    · rw [hrows]
      exact filter_not_cleared_append _ _ _ (favRow_userId userId l)
    · show (((syncUserData db userId sd now).2).favorites.filter
          (fun f => f.userId == userId)).map (fun f => f.animeData) = l
      rw [hrows, filter_cleared_append _ _ _ (favRow_userId userId l),
        List.map_map]
      exact List.map_id' l
    · rw [hcounts, hl, syncFavoritesStep_some]
  · intro l hl
    have hrows : ((syncUserData db userId sd now).2).watchlist
        = db.watchlist.filter (fun w => !(w.userId == userId))
            ++ l.map (watchlistRowOfEntry userId) := by
      rw [hwldb, hl, syncWatchlistStep_some,
        (syncFavoritesStep_frame db userId sd.favorites).1]
    refine ⟨?_, ?_, ?_, ?_⟩
    · rw [hrows]
      exact filter_cleared_append _ _ _ (watchlistRow_userId userId l)
    · rw [hrows]
      exact filter_not_cleared_append _ _ _ (watchlistRow_userId userId l)
    · simp only [fetchUserData]
      rw [hrows, filter_cleared_append _ _ _ (watchlistRow_userId userId l),
        List.map_map]
      rfl
    · rw [hcounts, hl, syncWatchlistStep_some]
  · intro l hl
    have hrows : ((syncUserData db userId sd now).2).watchHistory
        = db.watchHistory.filter (fun h => !(h.userId == userId))
            ++ l.map (historyRowOfEntry userId now) := by
      rw [hwhdb, hl, syncWatchHistoryStep_some,
        (syncWatchlistStep_frame _ _ _).2,
        (syncFavoritesStep_frame db userId sd.favorites).2]
    refine ⟨?_, ?_, ?_, ?_⟩
    · rw [hrows]
      exact filter_cleared_append _ _ _ (historyRow_userId userId now l)
    · rw [hrows]
      exact filter_not_cleared_append _ _ _ (historyRow_userId userId now l)
    · show ((syncUserData db userId sd now).2).watchHistory.filter
          (fun h => h.userId == userId) = l.map (historyRowOfEntry userId now)
      rw [hrows]
      exact filter_cleared_append _ _ _ (historyRow_userId userId now l)
    · rw [hcounts, hl, syncWatchHistoryStep_some]

/-- A submitted favorites entry used by the C7 witness. -/
def entryA : AnimeEntry := ⟨"a1", some "anime1", none, "dataA"⟩

/-- A pre-existing stored entry used by the C7 witness. -/
def entryOld : AnimeEntry := ⟨"old", some "animeOld", none, "dataOld"⟩

/-- A store with prior favorites (users 1 and 2), a watchlist row and a
history row for user 1. -/
def dbSync : DB :=
  { emptyDB with
    favorites := [⟨1, "animeOld", entryOld⟩, ⟨2, "animeZ", entryOld⟩],
    watchlist := [⟨1, "animeOld", "watching", entryOld⟩],
    watchHistory := [⟨1, "h1", "e1", 1, 0, 0, false, 0⟩] }

/-- A payload replacing favorites with one entry, clearing the
watchlist, and leaving watch history untouched. -/
def sdW : SyncData := ⟨some [entryA], some [], none⟩

/-- Witness for C7: on `dbSync`, syncing `sdW` for user 1 replaces the
favorites (count 1, no residual, other user's row kept), clears the
watchlist, and leaves the watch history untouched. -/
theorem sync_replaces_collections_witness :
    (sdW.favorites = some [entryA] ∧ sdW.watchlist = some [] ∧
     sdW.watchHistory = none) ∧
    (fetchUserData (syncUserData dbSync 1 sdW 9).2 1).favorites = [entryA] ∧
    ((syncUserData dbSync 1 sdW 9).1).synced.favorites = some 1 ∧
    ((syncUserData dbSync 1 sdW 9).2).favorites.filter
        (fun f => !(f.userId == 1))
      = dbSync.favorites.filter (fun f => !(f.userId == 1)) ∧
    ((syncUserData dbSync 1 sdW 9).2).watchlist.filter
        (fun w => w.userId == 1) = [] ∧
    ((syncUserData dbSync 1 sdW 9).2).watchHistory = dbSync.watchHistory :=
  ⟨⟨rfl, rfl, rfl⟩,
   ((sync_replaces_collections dbSync 1 sdW 9).2.2.2.1 [entryA] rfl).2.2.1,
   ((sync_replaces_collections dbSync 1 sdW 9).2.2.2.1 [entryA] rfl).2.2.2,
   ((sync_replaces_collections dbSync 1 sdW 9).2.2.2.1 [entryA] rfl).2.1,
   ((sync_replaces_collections dbSync 1 sdW 9).2.2.2.2.1 [] rfl).1,
   ((sync_replaces_collections dbSync 1 sdW 9).2.2.1 rfl).1⟩

/-- The counter increment touches only the `dailySignups` table. -/
theorem incrementSignupCount_users (db : DB) (today : String) :
    (incrementSignupCount db today).users = db.users := by
  unfold incrementSignupCount
  split <;> rfl

/-- Claim C3: whenever `register` succeeds, an immediately following
`login` with the same email and password succeeds with the very same
user projection, and verifying the bearer token returned by either
operation yields the id of the user created by `register`. -/
theorem register_login_roundtrip (db : DB) (ud : RegisterInput) (env : Env)
    (r : RegisterResult) (httl : 0 < env.jwtTtl)
    (h : (register db ud env).1 = .ok r) :
    login (register db ud env).2 ud.email ud.password env.now
        env.jwtSecret env.jwtTtl
      = .ok ⟨r.user, generateJWT r.user.id env.now env.jwtSecret env.jwtTtl⟩ ∧
    verifyToken (generateJWT r.user.id env.now env.jwtSecret env.jwtTtl)
        env.jwtSecret env.now = .ok ⟨r.user.id, env.now⟩ ∧
    verifyToken r.token env.jwtSecret env.now = .ok ⟨r.user.id, env.now⟩ := by
  simp only [register] at h ⊢
  split
  · next hallow =>
    rw [if_pos hallow] at h
    simp at h
  · next hallow =>
    rw [if_neg hallow] at h
    split
    · next x hemail =>
      rw [hemail] at h
      simp at h
    · next hemail =>
      rw [hemail] at h
      split
      · next x husername =>
        rw [husername] at h
        simp at h
      · next husername =>
        rw [husername] at h
        simp only [Except.ok.injEq] at h
        subst h
        have hlt : ¬ (env.now + env.jwtTtl ≤ env.now) := by omega
        refine ⟨?_, ?_, ?_⟩
        · simp only [login, incrementSignupCount_users]
          rw [find?_append_of_none hemail]
          simp [bcryptCompare, bcryptHash, stripPassword]
        · simp [verifyToken, generateJWT, hlt, stripPassword]
        · simp [verifyToken, generateJWT, hlt, stripPassword]

/-- Witness for C3: registering alice on the empty store then logging
in with the same credentials, token ttl 7. -/
theorem register_login_roundtrip_witness :
    (0 < envW.jwtTtl ∧ (register emptyDB aliceInput envW).1 = .ok regW) ∧
    login (register emptyDB aliceInput envW).2 aliceInput.email
        aliceInput.password envW.now envW.jwtSecret envW.jwtTtl
      = .ok ⟨regW.user, generateJWT regW.user.id envW.now envW.jwtSecret
          envW.jwtTtl⟩ ∧
    verifyToken (generateJWT regW.user.id envW.now envW.jwtSecret envW.jwtTtl)
        envW.jwtSecret envW.now = .ok ⟨regW.user.id, envW.now⟩ ∧
    verifyToken regW.token envW.jwtSecret envW.now
      = .ok ⟨regW.user.id, envW.now⟩ :=
  ⟨⟨by decide, by decide⟩,
   register_login_roundtrip emptyDB aliceInput envW regW (by decide) (by decide)⟩

end Otazumi
